import Mathlib

/-!
Verification of the SSDP server core (`coherence/upnp/core/ssdp.py`).

The Python code is shallowly embedded: the mutable `SSDPServer` object
becomes explicit state passing over `SSDPState` / `Server`, Python
exceptions become `Except PyErr`, outbound traffic and dispatched events
become an explicit `Eff` list, and `time.time()` is an `Int` parameter.
String manipulation mirrors Python `str.split`, `str.replace(_, _, 1)`,
`str.strip`, `int(...)` and the `fix_string` dequoting helper, all written
as structural recursions over `List Char` so that every definition
evaluates inside the kernel.
-/

/-- Python `s.split(sep)` for a one-character separator `c`
(keeps empty segments, like Python's explicit-separator split). -/
def splitCh (c : Char) : List Char → List (List Char)
  | [] => [[]]
  | x :: rest =>
    if x = c then [] :: splitCh c rest
    else
      match splitCh c rest with
      | s :: ss => (x :: s) :: ss
      | [] => [[x]]

/-- Python `s.split('\r\n')`: split on the two-character CRLF separator,
scanning left to right without overlap. -/
def splitCRLF : List Char → List (List Char)
  | [] => [[]]
  | '\r' :: '\n' :: rest => [] :: splitCRLF rest
  | x :: rest =>
    match splitCRLF rest with
    | s :: ss => (x :: s) :: ss
    | [] => [[x]]

/-- Python `s.split('\r\n\r\n')`: split on the four-character blank-line
separator, scanning left to right. -/
def splitCRLF2 : List Char → List (List Char)
  | [] => [[]]
  | '\r' :: '\n' :: '\r' :: '\n' :: rest => [] :: splitCRLF2 rest
  | x :: rest =>
    match splitCRLF2 rest with
    | s :: ss => (x :: s) :: ss
    | [] => [[x]]

/-- Python `s.split(c, 1)`: break at the first occurrence of `c`;
`none` in the second component means `c` does not occur. -/
def breakAt (c : Char) : List Char → List Char × Option (List Char)
  | [] => ([], none)
  | x :: xs =>
    if x = c then ([], some xs)
    else
      match breakAt c xs with
      | (a, b) => (x :: a, b)

/-- Python `s.replace(': ', ':', 1)`: rewrite the first `": "` to `":"`. -/
def replaceFirstColonSpace : List Char → List Char
  | [] => []
  | [x] => [x]
  | a :: b :: rest =>
    if a = ':' ∧ b = ' ' then ':' :: rest
    else a :: replaceFirstColonSpace (b :: rest)

/-- Python `s.strip()`: drop whitespace from both ends. -/
def pyStrip (l : List Char) : List Char :=
  ((l.dropWhile Char.isWhitespace).reverse.dropWhile Char.isWhitespace).reverse

/-- Decimal value of a digit list. -/
def digitsVal (l : List Char) : Nat :=
  l.foldl (fun a c => 10 * a + (c.toNat - 48)) 0

/-- Python `int(s)` on a decimal string: strips surrounding whitespace,
accepts an optional sign followed by digits, `none` on anything else
(digit-grouping underscores are not modelled; no input below uses them). -/
def pyInt? (s : String) : Option Int :=
  match pyStrip s.toList with
  | '+' :: ds =>
    if ds.length != 0 && ds.all Char.isDigit then some (digitsVal ds : Int) else none
  | '-' :: ds =>
    if ds.length != 0 && ds.all Char.isDigit then some (-(digitsVal ds : Int)) else none
  | ds =>
    if ds.length != 0 && ds.all Char.isDigit then some (digitsVal ds : Int) else none

/-- Sub-list (substring) test, Python's `pat in s`. -/
def isSubL (pat : List Char) : List Char → Bool
  | [] => pat.isEmpty
  | l@(_ :: rest) => pat.isPrefixOf l || isSubL pat rest

/-- One round of the `fix_string` while-loop for one quote character:
`while s.startswith(q): s = s[1:]`. -/
def dropQ (q : Char) : List Char → List Char
  | [] => []
  | c :: cs => if c = q then dropQ q cs else c :: cs

/-- The leading-quote phase of `fix_string`: the source iterates
`for q in ['\'', '"']`, so all single quotes are dropped first,
then all double quotes. -/
def stripLeadQuotes (l : List Char) : List Char :=
  dropQ '"' (dropQ '\'' l)

/-- `fix_string` on characters: strip leading quotes (singles then
doubles), then trailing quotes (singles then doubles, via reverse). -/
def fixChars (l : List Char) : List Char :=
  (stripLeadQuotes (stripLeadQuotes l).reverse).reverse

/-- `fix_string(s, to_lower)` from `datagramReceived`: dequote both ends
and optionally lowercase (ASCII lowering; all inputs here are ASCII). -/
def fix_string (s : String) (toLower : Bool) : String :=
  let l := fixChars s.toList
  String.mk (if toLower then l.map Char.toLower else l)

/-- Python errors that the embedded code can raise. -/
inductive PyErr
  | keyError (k : String)
  | valueError
  | typeError
  | attributeError
  | nameError
  | indexError
deriving DecidableEq, Repr

/-- Parse one already-`': '→':'`-rewritten header line, as in the
comprehension `[(fix_string(x[0]), fix_string(x[1], to_lower=False))
for x in [l.split(':', 1) for l in lines]]`; a line without a colon
raises `IndexError` at `x[1]`. -/
def parseReplacedLine (l : List Char) : Except PyErr (String × String) :=
  match breakAt ':' l with
  | (_, none) => .error PyErr.indexError
  | (a, some b) => .ok (fix_string (String.mk a) true, fix_string (String.mk b) false)

/-- Full treatment of one raw header line: the `': '→':'` rewrite, then
split at the first colon and dequote both sides. -/
def parseHeaderLine (line : String) : Except PyErr (String × String) :=
  parseReplacedLine (replaceFirstColonSpace line.toList)

/-- Header map: the parsed `(name, value)` pairs in line order.
Python's `dict(pairs)` keeps the *last* value for a repeated key. -/
def hget (hs : List (String × String)) (k : String) : Option String :=
  match hs with
  | [] => none
  | (k', v) :: rest =>
    match hget rest k with
    | some r => some r
    | none => if k' = k then some v else none

/-- `headers[k]`: raising lookup. -/
def keyGet (hs : List (String × String)) (k : String) : Except PyErr String :=
  match hget hs k with
  | some v => .ok v
  | none => .error (PyErr.keyError k)

/-- The constants of the module. -/
def SSDP_PORT : Int := 1900

def SSDP_ADDR : String := "239.255.255.250"

def SSDP_ADDR6 : String := "ff05::c"

/-- One entry of `self.known[usn]` (the dict built by `register`). -/
structure DeviceRec where
  usn : String
  location : String
  st : String
  ext : String
  server : String
  cacheControl : String
  manifestation : String
  silent : Bool
  host : Option String
  lastSeen : Int
deriving DecidableEq, Repr

/-- The registry state: `self.known` as an insertion-ordered association
list (Python dicts preserve insertion order) and `self.root_devices`. -/
structure SSDPState where
  known : List (String × DeviceRec)
  rootDevices : List String
deriving DecidableEq, Repr

/-- Everything observable that the server emits: dispatched events and
outbound datagrams. -/
inductive Eff
  | newDevice (st usn : String)
  | removedDevice (st usn : String)
  | logEv (host msg : String)
  | sentAlive (usn : String)
  | sentByebye (usn : String)
  | scheduledResponse (usn host : String) (port : Int)
  | datagramEvt (dat host : String)
deriving DecidableEq, Repr

/-- Python dict assignment `d[k] = v`: replace in place if the key
exists (keeping its position), else append. -/
def dictSet {α : Type} : List (String × α) → String → α → List (String × α)
  | [], k, v => [(k, v)]
  | p :: rest, k, v =>
    if p.1 = k then (k, v) :: rest else p :: dictSet rest k v

/-- Python dict lookup `d.get(k)`. -/
def lookupRec {α : Type} : List (String × α) → String → Option α
  | [], _ => none
  | p :: rest, u => if p.1 = u then some p.2 else lookupRec rest u

/-- Remove the first occurrence of `u`, Python `list.remove`;
`none` when absent (where Python raises `ValueError`). -/
def removeFirstStr : List String → String → Option (List String)
  | [], _ => none
  | x :: xs, u =>
    if x = u then some xs
    else (removeFirstStr xs u).map (fun l => x :: l)

/-- The body of `register` (everything inside its `try`, which catches
every exception, so the body itself is total).  Builds the record,
stores it under `usn`, runs `doNotify` for local manifestation (which
sends an alive notification unless the entry is silent), and for a
rootdevice dispatches `new_device` and appends to `root_devices`. -/
def registerBody (s : SSDPState) (manifestation usn st location server
    cacheControl : String) (silent : Bool) (host : Option String)
    (now : Int) : SSDPState × List Eff :=
  let r : DeviceRec :=
    { usn := usn, location := location, st := st, ext := "",
      server := server, cacheControl := cacheControl,
      manifestation := manifestation, silent := silent, host := host,
      lastSeen := now }
  let known := dictSet s.known usn r
  let notifyEffs :=
    if manifestation = "local" then
      if silent then ([] : List Eff) else [Eff.sentAlive usn]
    else []
  if st = "upnp:rootdevice" then
    ({ known := known, rootDevices := s.rootDevices ++ [usn] },
      notifyEffs ++ [Eff.newDevice st usn])
  else
    ({ known := known, rootDevices := s.rootDevices }, notifyEffs)

/-- `register`: the guard `if self.ipv6 and ":" not in host` runs before
the `try`, so with `host=None` in IPv6 mode Python raises `TypeError`
(`in` on `None`); an IPv4-literal host in IPv6 mode is a logged no-op. -/
def register (ipv6 : Bool) (s : SSDPState) (manifestation usn st location
    server cacheControl : String) (silent : Bool) (host : Option String)
    (now : Int) : Except PyErr (SSDPState × List Eff) :=
  if ipv6 then
    match host with
    | none => .error PyErr.typeError
    | some h =>
      if (h.toList.contains ':') = false then .ok (s, [])
      else .ok (registerBody s manifestation usn st location server
        cacheControl silent host now)
  else
    .ok (registerBody s manifestation usn st location server cacheControl
      silent host now)

/-- `unRegister`: `self.known[usn]` raises `KeyError` on an unknown USN;
for a rootdevice it dispatches `removed_device` and runs
`self.root_devices.remove(usn)` (which raises `ValueError` if the USN is
not in the projection), then deletes the entry.  Effects produced before
an exception are dropped by the `Except` modelling. -/
def unRegister (s : SSDPState) (usn : String) :
    Except PyErr (SSDPState × List Eff) :=
  match lookupRec s.known usn with
  | none => .error (PyErr.keyError usn)
  | some r =>
    if r.st = "upnp:rootdevice" then
      match removeFirstStr s.rootDevices usn with
      | none => .error PyErr.valueError
      | some rd =>
        .ok ({ known := s.known.filter (fun p => !(p.1 == usn)),
               rootDevices := rd }, [Eff.removedDevice r.st usn])
    else
      .ok ({ known := s.known.filter (fun p => !(p.1 == usn)),
             rootDevices := s.rootDevices }, [])

/-- `isKnown`. -/
def isKnown (s : SSDPState) (usn : String) : Bool :=
  (lookupRec s.known usn).isSome

/-- `self.known[u]['last-seen'] = time.time()`. -/
def touchLastSeen (s : SSDPState) (u : String) (now : Int) : SSDPState :=
  { s with known := s.known.map (fun p =>
      if p.1 = u then (p.1, { p.2 with lastSeen := now }) else p) }

/-- `notifyReceived`: the `self.info` f-string reads `headers['nt']`
first; then `headers['nts']` selects the branch.  On `ssdp:alive` the
`try` touches `last-seen`; its `except KeyError` re-reads the headers to
call `register('remote', ...)`, so a header missing there raises an
uncaught `KeyError` (in particular a missing `usn`).  On `ssdp:byebye` a
known USN is unregistered.  The trailing `log` dispatch reads
`headers['usn']` again. -/
def notifyReceived (ipv6 : Bool) (hs : List (String × String))
    (host : String) (now : Int) (s : SSDPState) :
    Except PyErr (SSDPState × List Eff) := do
  let _ ← keyGet hs "nt"
  let nts ← keyGet hs "nts"
  let res ←
    (if nts = "ssdp:alive" then
      match hget hs "usn" with
      | some u =>
        if (lookupRec s.known u).isSome then
          pure (touchLastSeen s u now, ([] : List Eff))
        else do
          let u2 ← keyGet hs "usn"
          let nt ← keyGet hs "nt"
          let loc ← keyGet hs "location"
          let srv ← keyGet hs "server"
          let cc ← keyGet hs "cache-control"
          register ipv6 s "remote" u2 nt loc srv cc false (some host) now
      | none => .error (PyErr.keyError "usn")
    else if nts = "ssdp:byebye" then do
      let u ← keyGet hs "usn"
      if isKnown s u then unRegister s u else pure (s, ([] : List Eff))
    else
      pure (s, ([] : List Eff)))
  let u3 ← keyGet hs "usn"
  pure (res.1, res.2 ++ [Eff.logEv host ("Notify " ++ nts ++ " for " ++ u3)])

/-- The `for i in list(self.known.values())` loop of `discoveryRequest`:
skip remote entries, skip silent entries on an `ssdp:all` search, and for
each remaining entry whose `ST` matches build a response and schedule it
after `delay = random.randint(0, int(headers['mx']))` — so each match
reads `headers['mx']` (KeyError when absent), parses it (ValueError on a
non-integer) and needs it non-negative (`randint` raises on an empty
range).  The response payload assembly and the random delay are
abstracted into the `scheduledResponse` effect carrying the entry's USN. -/
def searchLoop (hs : List (String × String)) (st host : String)
    (port : Int) : List (String × DeviceRec) → Except PyErr (List Eff)
  | [] => .ok []
  | (_, r) :: rest =>
    if r.manifestation = "remote" then searchLoop hs st host port rest
    else if st = "ssdp:all" ∧ r.silent then searchLoop hs st host port rest
    else if r.st = st ∨ st = "ssdp:all" then do
      let mxs ← keyGet hs "mx"
      match pyInt? mxs with
      | none => .error PyErr.valueError
      | some mx =>
        if mx < 0 then .error PyErr.valueError
        else do
          let effs ← searchLoop hs st host port rest
          pure (Eff.scheduledResponse r.usn host port :: effs)
    else searchLoop hs st host port rest

/-- `discoveryRequest`: reads `headers['st']` (the first `self.info`
f-string), dispatches the `log` event, and in IPv6 mode drops the request
when the `HOST` header does not contain the IPv6 group literal
(`SSDP_ADDR6 not in str(headers['host']).strip().lower()`); then runs
the matching loop.  The search mutates no registry state. -/
def discoveryRequest (ipv6 : Bool) (hs : List (String × String))
    (host : String) (port : Int) (s : SSDPState) :
    Except PyErr (List Eff) := do
  let st ← keyGet hs "st"
  let logE := Eff.logEv host ("M-Search for " ++ st)
  if ipv6 then do
    let hh ← keyGet hs "host"
    if (isSubL SSDP_ADDR6.toList ((pyStrip hh.toList).map Char.toLower)) = false
    then pure [logE]
    else do
      let effs ← searchLoop hs st host port s.known
      pure (logE :: effs)
  else do
    let effs ← searchLoop hs st host port s.known
    pure (logE :: effs)

/-- `_, expiry = self.known[usn]['CACHE-CONTROL'].split('=')` followed by
`int(expiry)`: succeeds exactly when the string holds exactly one `=`
whose tail is an integer; `none` stands for the `ValueError` raised
otherwise. -/
def parseMaxAge (s : String) : Option Int :=
  match splitCh '=' s.toList with
  | [_, e] => pyInt? (String.mk e)
  | _ => none

/-- The scanning pass of `check_valid`: walk the registry, and for every
entry whose manifestation is not `local` parse its `CACHE-CONTROL`
(raising on a malformed value) and, when the lease plus the 30-second
grace has passed, dispatch `removed_device` for rootdevices and mark the
USN removable. -/
def sweepScan (now : Int) : List (String × DeviceRec) →
    Except PyErr (List String × List Eff)
  | [] => .ok ([], [])
  | (u, r) :: rest =>
    if r.manifestation ≠ "local" then
      match parseMaxAge r.cacheControl with
      | none => .error PyErr.valueError
      | some n =>
        if r.lastSeen + n + 30 < now then do
          let res ← sweepScan now rest
          .ok (u :: res.1,
            (if r.st = "upnp:rootdevice" then [Eff.removedDevice r.st u]
             else []) ++ res.2)
        else sweepScan now rest
    else sweepScan now rest

/-- `check_valid`: scan, then `while len(removable) > 0: del
self.known[removable.pop(0)]`.  Note that `root_devices` is left
untouched by this method. -/
def check_valid (s : SSDPState) (now : Int) :
    Except PyErr (SSDPState × List Eff) := do
  let res ← sweepScan now s.known
  pure ({ known := s.known.filter (fun p => !(res.1.contains p.1)),
          rootDevices := s.rootDevices }, res.2)

/-- `datagramReceived`: split the datagram at the first blank line; when
there is no `\r\n\r\n` the unpacking `ValueError` is caught, but the
handler then prints, enters `pdb.set_trace()`, and on continuation hits
an unbound `header`, raising `NameError` — modelled as `.error nameError`.
Otherwise the header block is split into lines, the first line gives the
command pair (`cmd[1]` raising `IndexError` when there is no space), the
remaining non-empty lines are parsed into the header map, the command is
dispatched, and the `datagram_received` event is emitted last. -/
def datagramReceived (ipv6 : Bool) (dat : String) (host : String)
    (port : Int) (now : Int) (s : SSDPState) :
    Except PyErr (SSDPState × List Eff) :=
  match splitCRLF2 dat.toList with
  | header :: _ :: _ => do
    let lines := splitCRLF header
    let cmds := splitCh ' ' (lines.headD [])
    let hlines := ((lines.drop 1).map replaceFirstColonSpace).filter
      (fun l => l.length > 0)
    let hs ← hlines.mapM parseReplacedLine
    match cmds with
    | c0 :: c1 :: _ =>
      if String.mk c0 = "M-SEARCH" ∧ String.mk c1 = "*" then do
        let effs ← discoveryRequest ipv6 hs host port s
        pure (s, effs ++ [Eff.datagramEvt dat host])
      else if String.mk c0 = "NOTIFY" ∧ String.mk c1 = "*" then do
        let res ← notifyReceived ipv6 hs host now s
        pure (res.1, res.2 ++ [Eff.datagramEvt dat host])
      else
        pure (s, [Eff.datagramEvt dat host])
    | _ => .error PyErr.indexError
  | _ => .error PyErr.nameError

/-- The whole server object: registry plus the fields `shutdown` touches
(`test`, `ipv6`, the two `LoopingCall.running` flags, and whether
`self.dummy_socket` is a live socket or `None`). -/
structure Server where
  state : SSDPState
  test : Bool
  ipv6 : Bool
  resendRunning : Bool
  checkRunning : Bool
  dummySocket : Bool
deriving DecidableEq, Repr

/-- `shutdown`: the cancellation of pending `send_it` delayed calls is a
reactor-global side effect with no registry-visible state and is not
modelled.  In non-test mode the running periodic loops are stopped
(guarded by `.running`, so safely re-runnable), `doByebye` is sent for
every local record (the registry is *not* cleared), and in IPv6 mode the
companion socket is shut down — `self.dummy_socket.shutdown(...)` on the
`None` left by a previous call raises `AttributeError`, which the
`except OSError` clause does not catch. -/
def shutdown (sv : Server) : Except PyErr (Server × List Eff) :=
  if sv.test then .ok (sv, [])
  else
    let sv1 : Server :=
      { sv with resendRunning := false, checkRunning := false }
    let effs := (sv.state.known.filter
      (fun p => p.2.manifestation == "local")).map
      (fun p => Eff.sentByebye p.1)
    if sv.ipv6 then
      if sv.dummySocket then .ok ({ sv1 with dummySocket := false }, effs)
      else .error PyErr.attributeError
    else .ok (sv1, effs)

/-- `subscribe`: `self._callbacks.setdefault(name, []).append(callback)`;
callbacks are modelled by opaque identifiers. -/
def subscribe (cbs : List (String × List Nat)) (name : String)
    (cb : Nat) : List (String × List Nat) :=
  match lookupRec cbs name with
  | some l => dictSet cbs name (l ++ [cb])
  | none => dictSet cbs name [cb]

/-- Remove the first occurrence of a callback id (`list.remove`, here
guarded by the membership test so it never raises). -/
def removeFirstNat : List Nat → Nat → List Nat
  | [], _ => []
  | x :: xs, u => if x = u then xs else x :: removeFirstNat xs u

/-- `unsubscribe`: fetch with default, remove when present, store back. -/
def unsubscribe (cbs : List (String × List Nat)) (name : String)
    (cb : Nat) : List (String × List Nat) :=
  let callbacks := (lookupRec cbs name).getD []
  let callbacks := if cb ∈ callbacks then removeFirstNat callbacks cb
    else callbacks
  dictSet cbs name callbacks

instance {ε α : Type} [DecidableEq ε] [DecidableEq α] :
    DecidableEq (Except ε α) := fun x y =>
  match x, y with
  | .error a, .error b => decidable_of_iff (a = b) (by simp)
  | .error _, .ok _ => .isFalse (by simp)
  | .ok _, .error _ => .isFalse (by simp)
  | .ok a, .ok b => decidable_of_iff (a = b) (by simp)

/-- The spec's `root_devices` projection: the USNs of registry entries
whose `st` is `upnp:rootdevice`, in insertion order. -/
def rootProjection (known : List (String × DeviceRec)) : List String :=
  (known.filter (fun p => p.2.st == "upnp:rootdevice")).map (fun p => p.1)

/-- The match predicate exactly as the claim states it: the entry is
local and (`st == ssdp:all` with `silent == false`, or the search target
equals the entry's `st`). -/
def specSearchMatch (st : String) (r : DeviceRec) : Bool :=
  (r.manifestation == "local") &&
    (((st == "ssdp:all") && !r.silent) || (st == r.st))

/-- The match predicate the source's loop actually implements: skip
remotes, skip silents on `ssdp:all`, then require an `ST` match or
`ssdp:all`. -/
def codeMatch (st : String) (p : String × DeviceRec) : Bool :=
  !(p.2.manifestation == "remote") &&
    !((st == "ssdp:all") && p.2.silent) &&
    ((p.2.st == st) || (st == "ssdp:all"))

/-- Number of scheduled search responses among the emitted effects. -/
def countScheduled (effs : List Eff) : Nat :=
  (effs.filter (fun e =>
    match e with
    | Eff.scheduledResponse _ _ _ => true
    | _ => false)).length

/-- Dequoting as the spec words it: drop *any* run of leading quote
characters, single or double in any mixture. -/
def specDropQuotes : List Char → List Char
  | [] => []
  | c :: cs => if c = '\'' ∨ c = '"' then specDropQuotes cs else c :: cs

/-- Spec dequoting on both ends. -/
def specDequoteChars (l : List Char) : List Char :=
  (specDropQuotes (specDropQuotes l).reverse).reverse

/-- Spec dequoting of a string, with optional lowercasing, mirroring the
shape of `fix_string`. -/
def specDequote (s : String) (toLower : Bool) : String :=
  let l := specDequoteChars s.toList
  String.mk (if toLower then l.map Char.toLower else l)

/-- `true` when the list does not start with a quote character. -/
def headNotQuote (l : List Char) : Bool :=
  match l with
  | [] => true
  | c :: _ => !((c == '\'') || (c == '"'))

/-- The removal condition of the sweep, as a predicate on one entry:
not local, and lease (the parsed `max-age` tail) plus the 30-second
grace elapsed. -/
def removeB (now : Int) (p : String × DeviceRec) : Bool :=
  (p.2.manifestation != "local") &&
    decide (p.2.lastSeen + (parseMaxAge p.2.cacheControl).getD 0 + 30 < now)

/-- The `removed_device` events the sweep dispatches: one per removed
entry whose `st` is `upnp:rootdevice`, in registry order. -/
def sweepEvents (now : Int) (known : List (String × DeviceRec)) : List Eff :=
  known.filterMap (fun p =>
    if removeB now p && (p.2.st == "upnp:rootdevice") then
      some (Eff.removedDevice p.2.st p.1)
    else none)

/-- Registry entries with the `last_seen` field masked out, for stating
idempotence up to a refreshed timestamp. -/
def maskLastSeen (l : List (String × DeviceRec)) : List (String × DeviceRec) :=
  l.map (fun p => (p.1, { p.2 with lastSeen := 0 }))

/-- A remote rootdevice with a 10-second lease last seen at time 0
(scenario S4 of the spec). -/
def remoteRootRec : DeviceRec :=
  ⟨"uuid:dev", "http://10.0.0.7:80/d.xml", "upnp:rootdevice", "", "Foo/2",
    "max-age=10", "remote", false, some "10.0.0.7", 0⟩

/-- A local, non-silent rootdevice (scenario S1 of the spec). -/
def localRootRec : DeviceRec :=
  ⟨"uuid:abc", "http://10.0.0.2:8080/desc", "upnp:rootdevice", "",
    "TestSrv/1.0", "max-age=1800", "local", false, some "10.0.0.2", 0⟩

/-- A *silent* local entry whose `st` is literally `ssdp:all`: the
degenerate point where the spec's match predicate and the code differ. -/
def silentAllRec : DeviceRec :=
  ⟨"uuid:silent", "http://10.0.0.2:9090/desc", "ssdp:all", "", "TestSrv/1.0",
    "max-age=1800", "local", true, some "10.0.0.2", 0⟩

/-- `(String.mk l).toList` is `l`. -/
theorem toList_mk (l : List Char) : (String.mk l).toList = l := rfl

/-- C1: the claim asserts that every operation removing a rootdevice
entry from the registry also removes its USN from `root_devices`.  The
validity sweep does not: expiring the remote rootdevice of scenario S4
deletes it from `known` and dispatches `removed_device`, yet leaves the
USN in `root_devices`, so the projection invariant is broken. -/
theorem c1_sweep_breaks_root_projection :
    check_valid ⟨[("uuid:dev", remoteRootRec)], ["uuid:dev"]⟩ 100 =
      .ok (⟨[], ["uuid:dev"]⟩,
        [Eff.removedDevice "upnp:rootdevice" "uuid:dev"])
    ∧ rootProjection [] ≠ ["uuid:dev"] :=
  ⟨by decide, by decide⟩

/-- C2: the claim says a datagram with no `CRLF CRLF` is logged and
dropped without raising.  The handler instead catches the `ValueError`,
prints, enters `pdb.set_trace()`, and then raises `NameError` on the
unbound `header` variable, so the inbound pipeline raises on every such
frame. -/
theorem c2_malformed_datagram_raises :
    datagramReceived false "garbage" "10.0.0.1" 5000 0
      ⟨[("uuid:dev", remoteRootRec)], ["uuid:dev"]⟩ =
      .error PyErr.nameError := by decide

/-- C3 counterexample: `unRegister` on an unknown USN raises `KeyError`
(`self.known[usn]` has no guard), and `register` in IPv6 mode with the
default `host=None` raises `TypeError` (`":" not in None`), so the
public API does raise for some argument values. -/
theorem c3_public_api_raises_cex :
    unRegister ⟨[], []⟩ "uuid:x" = .error (PyErr.keyError "uuid:x")
    ∧ register true ⟨[], []⟩ "local" "uuid:x" "upnp:rootdevice"
        "http://l" "S" "max-age=1800" false none 0 =
      .error PyErr.typeError :=
  ⟨by decide, by decide⟩

/-- C4 counterexample: a NOTIFY whose header map lacks `nts` makes
`notifyReceived` raise `KeyError` instead of logging a warning and
dropping, and an M-SEARCH with no `MX` makes `discoveryRequest` raise
`KeyError` at the first matching local entry instead of treating the
delay as 0. -/
theorem c4_missing_header_cex :
    notifyReceived false [("nt", "upnp:rootdevice"), ("usn", "uuid:dev")]
        "10.0.0.7" 0 ⟨[], []⟩ = .error (PyErr.keyError "nts")
    ∧ discoveryRequest false [("st", "upnp:rootdevice")] "10.0.0.9" 51000
        ⟨[("uuid:abc", localRootRec)], ["uuid:abc"]⟩ =
      .error (PyErr.keyError "mx") :=
  ⟨by decide, by decide⟩

/-- C6 counterexample: a silent local entry whose `st` is literally
`ssdp:all` satisfies the claim's match predicate for an `ssdp:all`
search (the search target equals its `st` exactly), yet the loop's
`ssdp:all`-and-silent guard skips it, so no response is scheduled. -/
theorem c6_silent_ssdp_all_cex :
    discoveryRequest false [("st", "ssdp:all"), ("mx", "3")] "10.0.0.9"
        51000 ⟨[("uuid:silent", silentAllRec)], []⟩ =
      .ok [Eff.logEv "10.0.0.9" "M-Search for ssdp:all"]
    ∧ specSearchMatch "ssdp:all" silentAllRec = true
    ∧ countScheduled [Eff.logEv "10.0.0.9" "M-Search for ssdp:all"] = 0 :=
  ⟨by decide, by decide, by decide⟩

/-- C7 counterexample: registering the same rootdevice twice appends its
USN to `root_devices` a second time and emits a second `new_device`
event, so the second call is not idempotent up to `last_seen`. -/
theorem c7_register_twice_cex :
    register false ⟨[], []⟩ "remote" "uuid:dev" "upnp:rootdevice"
        "http://10.0.0.7:80/d.xml" "Foo/2" "max-age=10" false
        (some "10.0.0.7") 0 =
      .ok (⟨[("uuid:dev", remoteRootRec)], ["uuid:dev"]⟩,
        [Eff.newDevice "upnp:rootdevice" "uuid:dev"])
    ∧ register false ⟨[("uuid:dev", remoteRootRec)], ["uuid:dev"]⟩
        "remote" "uuid:dev" "upnp:rootdevice" "http://10.0.0.7:80/d.xml"
        "Foo/2" "max-age=10" false (some "10.0.0.7") 5 =
      .ok (⟨[("uuid:dev", { remoteRootRec with lastSeen := 5 })],
        ["uuid:dev", "uuid:dev"]⟩,
        [Eff.newDevice "upnp:rootdevice" "uuid:dev"])
    ∧ (["uuid:dev", "uuid:dev"] : List String) ≠ ["uuid:dev"] :=
  ⟨by decide, by decide, by decide⟩

/-- C9 counterexample: a second `shutdown` re-sends the byebye for every
local record (the registry is never cleared), and in IPv6 mode raises
`AttributeError` because the companion socket field was set to `None`
by the first call and the retry's `except` only catches `OSError`. -/
theorem c9_shutdown_second_call_cex :
    shutdown ⟨⟨[("uuid:abc", localRootRec)], ["uuid:abc"]⟩,
        false, false, true, true, false⟩ =
      .ok (⟨⟨[("uuid:abc", localRootRec)], ["uuid:abc"]⟩,
        false, false, false, false, false⟩, [Eff.sentByebye "uuid:abc"])
    ∧ shutdown ⟨⟨[("uuid:abc", localRootRec)], ["uuid:abc"]⟩,
        false, false, false, false, false⟩ =
      .ok (⟨⟨[("uuid:abc", localRootRec)], ["uuid:abc"]⟩,
        false, false, false, false, false⟩, [Eff.sentByebye "uuid:abc"])
    ∧ ([Eff.sentByebye "uuid:abc"] : List Eff) ≠ []
    ∧ shutdown ⟨⟨[("uuid:abc", localRootRec)], ["uuid:abc"]⟩,
        false, true, true, true, true⟩ =
      .ok (⟨⟨[("uuid:abc", localRootRec)], ["uuid:abc"]⟩,
        false, true, false, false, false⟩, [Eff.sentByebye "uuid:abc"])
    ∧ shutdown ⟨⟨[("uuid:abc", localRootRec)], ["uuid:abc"]⟩,
        false, true, false, false, false⟩ =
      .error PyErr.attributeError :=
  ⟨by decide, by decide, by decide, by decide, by decide⟩

/-- C8 counterexample: the spec demands that a mixed quote run such as
`"'` be stripped entirely, but `fix_string` strips all single quotes
before all double quotes, so the value of the header line `usn:"'abc`
keeps its inner single quote. -/
theorem c8_mixed_quote_run_cex :
    parseHeaderLine "usn:\"'abc" = .ok ("usn", "'abc")
    ∧ specDequote "\"'abc" false = "abc"
    ∧ ("'abc" : String) ≠ "abc" :=
  ⟨by decide, by decide, by decide⟩

/-- When the double-quote pass stops at a non-quote character it has
removed the whole maximal quote run, so it agrees with the spec's
quote-run stripping. -/
theorem dropQ_eq_spec_of_headNotQuote (l : List Char)
    (h : headNotQuote (dropQ '"' l) = true) :
    dropQ '"' l = specDropQuotes l := by
  induction l with
  | nil => rfl
  | cons c cs ih =>
    by_cases hc : c = '"'
    · subst hc
      simp only [dropQ, if_pos rfl] at h ⊢
      simpa [specDropQuotes] using ih h
    · by_cases hq : c = '\''
      · subst hq
        simp [dropQ, headNotQuote] at h
      · simp [dropQ, specDropQuotes, hc, hq]

/-- When the singles-then-doubles stripping of `fix_string` ends at a
non-quote character it equals the spec's full quote-run stripping. -/
theorem stripLead_eq_spec (l : List Char)
    (h : headNotQuote (stripLeadQuotes l) = true) :
    stripLeadQuotes l = specDropQuotes l := by
  induction l with
  | nil => rfl
  | cons c cs ih =>
    by_cases h1 : c = '\''
    · subst h1
      have hl : stripLeadQuotes ('\'' :: cs) = stripLeadQuotes cs := by
        simp [stripLeadQuotes, dropQ]
      rw [hl] at h ⊢
      simpa [specDropQuotes] using ih h
    · by_cases h2 : c = '"'
      · subst h2
        have hl : stripLeadQuotes ('"' :: cs) = dropQ '"' cs := by
          simp [stripLeadQuotes, dropQ, h1]
        rw [hl] at h ⊢
        simpa [specDropQuotes] using dropQ_eq_spec_of_headNotQuote cs h
      · simp [stripLeadQuotes, dropQ, specDropQuotes, h1, h2]

/-- Both ends: whenever each stripping phase of `fix_string` ends clear
of quotes, the result is exactly the spec's two-sided dequoting. -/
theorem fixChars_eq_spec (l : List Char)
    (h1 : headNotQuote (stripLeadQuotes l) = true)
    (h2 : headNotQuote (stripLeadQuotes (stripLeadQuotes l).reverse) = true) :
    fixChars l = specDequoteChars l := by
  unfold fixChars specDequoteChars
  have e1 := stripLead_eq_spec l h1
  rw [e1] at h2 ⊢
  rw [stripLead_eq_spec _ h2]

/-- C8 (amended): a parsed header line is dequoted by stripping first
all single quotes, then all double quotes, on each side; whenever that
leaves no quote character at either boundary of the name and of the
value — in particular for every uniform quote run, such as the spec's
example `'USN': "uuid:abc"` — the result coincides with the spec's
dequoting (lowercased name, case-preserved value).  A mixed run whose
double quotes precede single quotes is left partially quoted. -/
theorem c8_dequote_characterization (line : String) (a b : List Char)
    (hsplit : breakAt ':' (replaceFirstColonSpace line.toList) = (a, some b))
    (ha1 : headNotQuote (stripLeadQuotes a) = true)
    (ha2 : headNotQuote (stripLeadQuotes (stripLeadQuotes a).reverse) = true)
    (hb1 : headNotQuote (stripLeadQuotes b) = true)
    (hb2 : headNotQuote (stripLeadQuotes (stripLeadQuotes b).reverse) = true) :
    parseHeaderLine line =
      .ok (String.mk ((specDequoteChars a).map Char.toLower),
        String.mk (specDequoteChars b)) := by
  unfold parseHeaderLine parseReplacedLine
  rw [hsplit]
  show Except.ok (fix_string (String.mk a) true, fix_string (String.mk b) false) = _
  simp only [fix_string, toList_mk]
  rw [fixChars_eq_spec a ha1 ha2, fixChars_eq_spec b hb1 hb2]
  simp

/-- C8 witness: the spec's S6 line parses to `usn → uuid:abc`. -/
theorem c8_dequote_characterization_witness :
    breakAt ':' (replaceFirstColonSpace "'USN': \"uuid:abc\"".toList) =
      ("'USN'".toList, some "\"uuid:abc\"".toList)
    ∧ parseHeaderLine "'USN': \"uuid:abc\"" = .ok ("usn", "uuid:abc") := by
  refine ⟨by decide, ?_⟩
  have h := c8_dequote_characterization "'USN': \"uuid:abc\""
    "'USN'".toList "\"uuid:abc\"".toList (by decide) (by decide)
    (by decide) (by decide) (by decide)
  exact h.trans (by decide)

/-- `list.remove` succeeds exactly on membership. -/
theorem removeFirstStr_isSome_iff (l : List String) (u : String) :
    (removeFirstStr l u).isSome = true ↔ u ∈ l := by
  induction l with
  | nil => simp [removeFirstStr]
  | cons x xs ih =>
    by_cases h : x = u
    · subst h; simp [removeFirstStr]
    · cases hr : removeFirstStr xs u with
      | none =>
        rw [hr] at ih
        simp [removeFirstStr, h, hr, Ne.symm h, ← ih]
      | some l' =>
        rw [hr] at ih
        simp [removeFirstStr, h, hr, Ne.symm h, ← ih]

/-- An `if` between two `ok` results is `ok`. -/
theorem isOk_ite_ok {c : Prop} [Decidable c] {e a : Type} (x y : a) :
    (if c then (Except.ok x : Except e a) else Except.ok y).isOk = true := by
  split <;> rfl

/-- C3 (amended): `isKnown`, `subscribe` and `unsubscribe` are total;
`register` never raises except in IPv6 mode with `host=None`, where the
pre-`try` guard raises `TypeError`; and `unRegister` succeeds exactly
when the USN is known and, for a rootdevice entry, also present in
`root_devices` (raising `KeyError`, respectively `ValueError` from
`list.remove`, otherwise) — so errors do cross the public API. -/
theorem c3_api_error_characterization :
    (∀ (s : SSDPState) (m u st loc srv cc : String) (sil : Bool)
      (h : Option String) (now : Int),
      (register false s m u st loc srv cc sil h now).isOk = true)
    ∧ (∀ (s : SSDPState) (m u st loc srv cc : String) (sil : Bool)
      (h : String) (now : Int),
      (register true s m u st loc srv cc sil (some h) now).isOk = true)
    ∧ (∀ (s : SSDPState) (m u st loc srv cc : String) (sil : Bool)
      (now : Int),
      register true s m u st loc srv cc sil none now =
        .error PyErr.typeError)
    ∧ (∀ (s : SSDPState) (u : String),
      (unRegister s u).isOk = true ↔
        ∃ r, lookupRec s.known u = some r ∧
          (r.st ≠ "upnp:rootdevice" ∨ u ∈ s.rootDevices)) := by
  refine ⟨?_, ?_, ?_, ?_⟩
  · intro s m u st loc srv cc sil h now
    rfl
  · intro s m u st loc srv cc sil h now
    exact isOk_ite_ok (s, []) (registerBody s m u st loc srv cc sil
      (some h) now)
  · intro s m u st loc srv cc sil now
    rfl
  · intro s u
    cases hl : lookupRec s.known u with
    | none => simp [unRegister, hl, Except.isOk, Except.toBool]
    | some r =>
      by_cases hst : r.st = "upnp:rootdevice"
      · cases hrm : removeFirstStr s.rootDevices u with
        | none =>
          have hmem : ¬ u ∈ s.rootDevices := by
            rw [← removeFirstStr_isSome_iff, hrm]
            simp
          simp [unRegister, hl, hst, hrm, Except.isOk, Except.toBool, hmem]
        | some rd =>
          have hmem : u ∈ s.rootDevices := by
            rw [← removeFirstStr_isSome_iff, hrm]
            rfl
          simp [unRegister, hl, hst, hrm, Except.isOk, Except.toBool, hmem]
      · simp [unRegister, hl, hst, Except.isOk, Except.toBool]

/-- When the `MX` header is absent, the search loop raises `KeyError`
as soon as one entry matches. -/
theorem searchLoop_keyError_mx (hs : List (String × String))
    (st host : String) (port : Int) (l : List (String × DeviceRec))
    (hmx : hget hs "mx" = none)
    (hm : ∃ p ∈ l, codeMatch st p = true) :
    searchLoop hs st host port l = .error (PyErr.keyError "mx") := by
  induction l with
  | nil => simp at hm
  | cons q rest ih =>
    obtain ⟨u, r⟩ := q
    obtain ⟨p, hpmem, hpmatch⟩ := hm
    by_cases h1 : r.manifestation = "remote"
    · have htail : p ∈ rest := by
        rcases List.mem_cons.mp hpmem with hep | hin
        · subst hep; simp [codeMatch, h1] at hpmatch
        · exact hin
      simpa [searchLoop, h1] using ih ⟨p, htail, hpmatch⟩
    · by_cases h2 : st = "ssdp:all" ∧ r.silent
      · have htail : p ∈ rest := by
          rcases List.mem_cons.mp hpmem with hep | hin
          · subst hep; simp [codeMatch, h1, h2.1, h2.2] at hpmatch
          · exact hin
        simpa [searchLoop, h1, h2.1, h2.2] using ih ⟨p, htail, hpmatch⟩
      · by_cases h3 : r.st = st ∨ st = "ssdp:all"
        · simp [searchLoop, h1, h2, h3, keyGet, hmx, Bind.bind,
            Except.bind]
        · have htail : p ∈ rest := by
            rcases List.mem_cons.mp hpmem with hep | hin
            · subst hep
              rcases not_or.mp h3 with ⟨h3a, h3b⟩
              simp [codeMatch, h1, h3a, h3b] at hpmatch
            · exact hin
          simpa [searchLoop, h1, h2, h3] using ih ⟨p, htail, hpmatch⟩

/-- C4 (amended): a NOTIFY or M-SEARCH whose header map lacks one of
the headers the handler reads does not get a warning-and-drop: the
handler raises `KeyError` to its caller.  A NOTIFY with `nt` present
but `nts` absent raises `KeyError 'nts'`; an M-SEARCH with `st`
present but `mx` absent raises `KeyError 'mx'` as soon as one local
entry matches (the delay is never treated as 0). -/
theorem c4_missing_header_raises :
    (∀ (s : SSDPState) (hs : List (String × String)) (host : String)
      (now : Int) (v : String),
      hget hs "nt" = some v → hget hs "nts" = none →
      notifyReceived false hs host now s = .error (PyErr.keyError "nts"))
    ∧ (∀ (s : SSDPState) (hs : List (String × String)) (host : String)
      (port : Int) (st : String),
      hget hs "st" = some st → hget hs "mx" = none →
      (∃ p ∈ s.known, codeMatch st p = true) →
      discoveryRequest false hs host port s =
        .error (PyErr.keyError "mx")) := by
  constructor
  · intro s hs host now v h1 h2
    simp [notifyReceived, keyGet, h1, h2, Bind.bind, Except.bind]
  · intro s hs host port st h1 h2 h3
    simp [discoveryRequest, keyGet, h1,
      searchLoop_keyError_mx hs st host port s.known h2 h3, Bind.bind,
      Except.bind, Functor.map, Except.map]

/-- C4 witness: concrete instances of both conjuncts. -/
theorem c4_missing_header_raises_witness :
    hget [("nt", "upnp:rootdevice")] "nt" = some "upnp:rootdevice"
    ∧ hget [("nt", "upnp:rootdevice")] "nts" = none
    ∧ notifyReceived false [("nt", "upnp:rootdevice")] "10.0.0.7" 0
        ⟨[], []⟩ = .error (PyErr.keyError "nts")
    ∧ hget [("st", "upnp:rootdevice")] "st" = some "upnp:rootdevice"
    ∧ hget [("st", "upnp:rootdevice")] "mx" = none
    ∧ codeMatch "upnp:rootdevice" ("uuid:abc", localRootRec) = true
    ∧ discoveryRequest false [("st", "upnp:rootdevice")] "10.0.0.9"
        51000 ⟨[("uuid:abc", localRootRec)], ["uuid:abc"]⟩ =
      .error (PyErr.keyError "mx") := by
  refine ⟨by decide, by decide, ?_, by decide, by decide, by decide, ?_⟩
  · exact c4_missing_header_raises.1 ⟨[], []⟩ [("nt", "upnp:rootdevice")]
      "10.0.0.7" 0 "upnp:rootdevice" (by decide) (by decide)
  · exact c4_missing_header_raises.2
      ⟨[("uuid:abc", localRootRec)], ["uuid:abc"]⟩
      [("st", "upnp:rootdevice")] "10.0.0.9" 51000 "upnp:rootdevice"
      (by decide) (by decide)
      ⟨("uuid:abc", localRootRec), by decide, by decide⟩

/-- With a present, non-negative integer `MX` header, the search loop
schedules exactly one response per entry the code's guards let through,
in registry order. -/
theorem searchLoop_ok_char (hs : List (String × String))
    (st host : String) (port : Int) (m : String) (n : Int)
    (hmx : hget hs "mx" = some m) (hpi : pyInt? m = some n)
    (hn : 0 ≤ n) (l : List (String × DeviceRec)) :
    searchLoop hs st host port l =
      .ok ((l.filter (codeMatch st)).map
        (fun p => Eff.scheduledResponse p.2.usn host port)) := by
  induction l with
  | nil => rfl
  | cons q rest ih =>
    obtain ⟨u, r⟩ := q
    by_cases h1 : r.manifestation = "remote"
    · simpa [searchLoop, h1, codeMatch] using ih
    · by_cases h2 : st = "ssdp:all" ∧ r.silent
      · simpa [searchLoop, h1, h2.1, h2.2, codeMatch] using ih
      · by_cases h3 : r.st = st ∨ st = "ssdp:all"
        · have hlt : ¬ n < 0 := not_lt.mpr hn
          rcases h3 with h3a | h3b
          · have hcm : codeMatch st (u, r) = true := by
              by_cases hall : st = "ssdp:all"
              · subst hall
                have hsil : r.silent = false := by simpa using h2
                simp [codeMatch, h1, hsil, h3a]
              · simp [codeMatch, h1, hall, h3a]
            simp [searchLoop, h1, h2, h3a, keyGet, hmx, hpi, hlt, hcm,
              ih, Bind.bind, Except.bind, Pure.pure, Except.pure,
              List.filter_cons]
          · subst h3b
            have hsil : r.silent = false := by simpa using h2
            simp [searchLoop, h1, hsil, keyGet, hmx, hpi, hlt,
              codeMatch, ih, Bind.bind, Except.bind, Pure.pure,
              Except.pure]
        · rcases not_or.mp h3 with ⟨h3a, h3b⟩
          simpa [searchLoop, h1, h2, h3a, h3b, codeMatch] using ih

/-- C6 (amended): with `st` and a parseable non-negative `mx` present,
exactly one response is scheduled per registry entry satisfying the
code's guards: not remote, not (search `ssdp:all` and silent), and
entry `st` equal to the target or target `ssdp:all`.  This agrees with
the claim's predicate except for a silent local entry whose `st` is
literally `ssdp:all`, which gets no response to an `ssdp:all` search. -/
theorem c6_discovery_schedule_characterization (s : SSDPState)
    (hs : List (String × String)) (host : String) (port : Int)
    (st m : String) (n : Int)
    (h1 : hget hs "st" = some st) (h2 : hget hs "mx" = some m)
    (h3 : pyInt? m = some n) (h4 : 0 ≤ n) :
    discoveryRequest false hs host port s =
      .ok (Eff.logEv host ("M-Search for " ++ st) ::
        (s.known.filter (codeMatch st)).map
          (fun p => Eff.scheduledResponse p.2.usn host port)) := by
  simp [discoveryRequest, keyGet, h1,
    searchLoop_ok_char hs st host port m n h2 h3 h4 s.known,
    Bind.bind, Except.bind, Functor.map, Except.map, Pure.pure,
    Except.pure]

/-- C6 witness: scenario S3 — one local rootdevice, an M-SEARCH for
`upnp:rootdevice` with `MX: 3` schedules exactly one response. -/
theorem c6_discovery_schedule_characterization_witness :
    hget [("st", "upnp:rootdevice"), ("mx", "3")] "st" =
      some "upnp:rootdevice"
    ∧ hget [("st", "upnp:rootdevice"), ("mx", "3")] "mx" = some "3"
    ∧ pyInt? "3" = some 3
    ∧ (0 : Int) ≤ 3
    ∧ discoveryRequest false [("st", "upnp:rootdevice"), ("mx", "3")]
        "10.0.0.9" 51000 ⟨[("uuid:abc", localRootRec)], ["uuid:abc"]⟩ =
      .ok [Eff.logEv "10.0.0.9" "M-Search for upnp:rootdevice",
        Eff.scheduledResponse "uuid:abc" "10.0.0.9" 51000] := by
  refine ⟨by decide, by decide, by decide, by decide, ?_⟩
  exact (c6_discovery_schedule_characterization
    ⟨[("uuid:abc", localRootRec)], ["uuid:abc"]⟩
    [("st", "upnp:rootdevice"), ("mx", "3")] "10.0.0.9" 51000
    "upnp:rootdevice" "3" 3 (by decide) (by decide) (by decide)
    (by decide)).trans (by decide)

/-- The scanning pass, under the precondition that every non-local
entry's `CACHE-CONTROL` parses: it marks exactly the entries matching
`removeB` (in order) and dispatches `removed_device` exactly for the
marked rootdevices. -/
theorem sweepScan_ok_char (now : Int) (l : List (String × DeviceRec))
    (hp : ∀ p ∈ l, p.2.manifestation ≠ "local" →
      (parseMaxAge p.2.cacheControl).isSome = true) :
    sweepScan now l =
      .ok ((l.filter (removeB now)).map Prod.fst, sweepEvents now l) := by
  induction l with
  | nil => rfl
  | cons q rest ih =>
    obtain ⟨u, r⟩ := q
    have hptail : ∀ p ∈ rest, p.2.manifestation ≠ "local" →
        (parseMaxAge p.2.cacheControl).isSome = true :=
      fun p hm => hp p (List.mem_cons_of_mem _ hm)
    have ih' := ih hptail
    by_cases hloc : r.manifestation = "local"
    · simp [sweepScan, sweepEvents, removeB, hloc, ih']
    · have hsome := hp (u, r) (List.mem_cons_self _ _) hloc
      obtain ⟨n, hn⟩ := Option.isSome_iff_exists.mp hsome
      by_cases hexp : r.lastSeen + n + 30 < now
      · have hrb : removeB now (u, r) = true := by
          simp [removeB, hloc, hn, hexp]
        by_cases hroot : r.st = "upnp:rootdevice" <;>
          simp [sweepScan, sweepEvents, hloc, hn, hexp, hrb, hroot, ih',
            Bind.bind, Except.bind, List.filter_cons, List.filterMap_cons]
      · have hrb : removeB now (u, r) = false := by
          simp [removeB, hloc, hn, hexp]
        simp [sweepScan, sweepEvents, hloc, hn, hexp, hrb, ih',
          List.filter_cons]

/-- With duplicate-free keys (a Python dict invariant), key membership
in the filtered key list coincides with the filter predicate. -/
theorem contains_key_filter {l : List (String × DeviceRec)}
    (hnd : (l.map Prod.fst).Nodup) (f : String × DeviceRec → Bool)
    {p : String × DeviceRec} (hp : p ∈ l) :
    ((l.filter f).map Prod.fst).contains p.1 = f p := by
  have hinj := List.inj_on_of_nodup_map hnd
  cases hf : f p
  · simp only [List.contains, List.elem_eq_mem, decide_eq_false_iff_not]
    intro hmem
    obtain ⟨q, hqmem, hq1⟩ := List.mem_map.mp hmem
    obtain ⟨hql, hqf⟩ := List.mem_filter.mp hqmem
    have heq : q = p := hinj hql hp hq1
    rw [heq, hf] at hqf
    exact Bool.false_ne_true hqf
  · simp only [List.contains, List.elem_eq_mem]
    have hmem : p.1 ∈ (l.filter f).map Prod.fst :=
      List.mem_map.mpr ⟨p, List.mem_filter.mpr ⟨hp, hf⟩, rfl⟩
    simp [hmem]

/-- C5: when every non-local entry's `CACHE-CONTROL` parses (and keys
are unique, as in a dict), the sweep succeeds, examines only non-local
entries, removes exactly those with `last_seen + N + 30 < now`, leaves
`root_devices` as it was, and emits `removed_device` exactly for the
removed rootdevices; locals are never removed whatever the clock. -/
theorem c5_sweep_removes_exactly_expired (s : SSDPState) (now : Int)
    (hnd : (s.known.map Prod.fst).Nodup)
    (hp : ∀ p ∈ s.known, p.2.manifestation ≠ "local" →
      (parseMaxAge p.2.cacheControl).isSome = true) :
    check_valid s now = .ok
      ({ known := s.known.filter (fun p => !(removeB now p)),
         rootDevices := s.rootDevices }, sweepEvents now s.known) := by
  have hscan := sweepScan_ok_char now s.known hp
  simp only [check_valid, hscan, Bind.bind, Except.bind, Pure.pure,
    Except.pure, List.contains, List.elem_eq_mem]
  have hfc : s.known.filter
      (fun p => !(decide (p.1 ∈ (s.known.filter (removeB now)).map Prod.fst)))
      = s.known.filter (fun p => !(removeB now p)) := by
    apply List.filter_congr
    intro p hpmem
    have h := contains_key_filter hnd (removeB now) hpmem
    simp only [List.contains, List.elem_eq_mem] at h
    rw [h]
  rw [hfc]

/-- C5 witness: scenario S4 — a remote rootdevice with `max-age=10`
last seen at 0 is removed (with a `removed_device` event) by a sweep at
clock 41 and retained by a sweep at clock 39. -/
theorem c5_sweep_removes_exactly_expired_witness :
    check_valid ⟨[("uuid:dev", remoteRootRec)], ["uuid:dev"]⟩ 41 =
      .ok (⟨[], ["uuid:dev"]⟩,
        [Eff.removedDevice "upnp:rootdevice" "uuid:dev"])
    ∧ check_valid ⟨[("uuid:dev", remoteRootRec)], ["uuid:dev"]⟩ 39 =
      .ok (⟨[("uuid:dev", remoteRootRec)], ["uuid:dev"]⟩, []) := by
  constructor
  · exact (c5_sweep_removes_exactly_expired
      ⟨[("uuid:dev", remoteRootRec)], ["uuid:dev"]⟩ 41 (by decide)
      (by decide)).trans (by decide)
  · exact (c5_sweep_removes_exactly_expired
      ⟨[("uuid:dev", remoteRootRec)], ["uuid:dev"]⟩ 39 (by decide)
      (by decide)).trans (by decide)

/-- The scan succeeds exactly when every non-local entry's
`CACHE-CONTROL` parses as `max-age=N`. -/
theorem sweepScan_isOk_iff (now : Int) (l : List (String × DeviceRec)) :
    (sweepScan now l).isOk = true ↔
      ∀ p ∈ l, p.2.manifestation ≠ "local" →
        (parseMaxAge p.2.cacheControl).isSome = true := by
  induction l with
  | nil => simp [sweepScan, Except.isOk, Except.toBool]
  | cons q rest ih =>
    obtain ⟨u, r⟩ := q
    by_cases hloc : r.manifestation = "local"
    · simp [sweepScan, hloc, ih]
    · cases hn : parseMaxAge r.cacheControl with
      | none => simp [sweepScan, hloc, hn, Except.isOk, Except.toBool]
      | some n =>
        by_cases hexp : r.lastSeen + n + 30 < now
        · cases hres : sweepScan now rest with
          | error e =>
            rw [hres] at ih
            have hnot : ¬ ∀ p ∈ rest, p.2.manifestation ≠ "local" →
                (parseMaxAge p.2.cacheControl).isSome = true := by
              rw [← ih]; simp [Except.isOk, Except.toBool]
            push_neg at hnot
            obtain ⟨p, hpm, hc1, hc2⟩ := hnot
            simp [sweepScan, hloc, hn, hexp, hres, Except.isOk,
              Except.toBool, Bind.bind, Except.bind]
            exact ⟨p.1, p.2, hpm, hc1,
              Option.not_isSome_iff_eq_none.mp (by simp [hc2])⟩
          | ok v =>
            rw [hres] at ih
            have hall : ∀ p ∈ rest, p.2.manifestation ≠ "local" →
                (parseMaxAge p.2.cacheControl).isSome = true := by
              rw [← ih]; simp [Except.isOk, Except.toBool]
            simp [sweepScan, hloc, hn, hexp, hres, Except.isOk,
              Except.toBool, Bind.bind, Except.bind]
            exact fun a b hm hq => hall (a, b) hm hq
        · simp [sweepScan, hloc, hn, hexp, ih]

/-- `check_valid` succeeds exactly when its scan does. -/
theorem check_valid_isOk_iff (s : SSDPState) (now : Int) :
    (check_valid s now).isOk = true ↔
      ∀ p ∈ s.known, p.2.manifestation ≠ "local" →
        (parseMaxAge p.2.cacheControl).isSome = true := by
  rw [← sweepScan_isOk_iff now s.known]
  cases h : sweepScan now s.known <;>
    simp [check_valid, h, Except.isOk, Except.toBool, Bind.bind,
      Except.bind, Pure.pure, Except.pure]

/-- Assigning a fresh key appends the pair. -/
theorem dictSet_of_lookup_none {α : Type} (l : List (String × α))
    (u : String) (v : α) (h : lookupRec l u = none) :
    dictSet l u v = l ++ [(u, v)] := by
  induction l with
  | nil => rfl
  | cons p rest ih =>
    by_cases hp : p.1 = u
    · simp [lookupRec, hp] at h
    · simp only [lookupRec, hp, if_neg hp] at h
      simp [dictSet, hp, ih h]

/-- The registry update of `register` is the same dict assignment in
both the rootdevice and the ordinary branch. -/
theorem registerBody_known (s : SSDPState) (m u st loc srv cc : String)
    (sil : Bool) (h : Option String) (now : Int) :
    (registerBody s m u st loc srv cc sil h now).1.known =
      dictSet s.known u ⟨u, loc, st, "", srv, cc, m, sil, h, now⟩ := by
  simp only [registerBody]
  split <;> rfl

/-- C10: the sweep terminates normally exactly when every non-local
entry's `CACHE-CONTROL` splits at one `=` into an integer tail; and a
NOTIFY `ssdp:alive` for an unknown USN carrying an unparseable
`cache-control` is accepted into the registry and then makes every
subsequent sweep raise. -/
theorem c10_sweep_parse_precondition :
    (∀ (s : SSDPState) (now : Int),
      (check_valid s now).isOk = true ↔
        ∀ p ∈ s.known, p.2.manifestation ≠ "local" →
          (parseMaxAge p.2.cacheControl).isSome = true)
    ∧ (∀ (s : SSDPState) (hs : List (String × String)) (host : String)
        (now : Int) (nt0 u loc srv cc : String),
        hget hs "nt" = some nt0 → hget hs "nts" = some "ssdp:alive" →
        hget hs "usn" = some u → lookupRec s.known u = none →
        hget hs "location" = some loc → hget hs "server" = some srv →
        hget hs "cache-control" = some cc → parseMaxAge cc = none →
        ∃ s1 effs, notifyReceived false hs host now s = .ok (s1, effs) ∧
          ∀ now2, (check_valid s1 now2).isOk = false) := by
  constructor
  · exact check_valid_isOk_iff
  · intro s hs host now nt0 u loc srv cc h1 h2 h3 h4 h5 h6 h7 h8
    refine ⟨(registerBody s "remote" u nt0 loc srv cc false (some host)
        now).1,
      (registerBody s "remote" u nt0 loc srv cc false (some host) now).2
        ++ [Eff.logEv host ("Notify " ++ "ssdp:alive" ++ " for " ++ u)],
      ?_, ?_⟩
    · simp [notifyReceived, keyGet, h1, h2, h3, h4, h5, h6, h7,
        register, Bind.bind, Except.bind, Pure.pure, Except.pure]
    · intro now2
      have hmem : ((u : String),
          (⟨u, loc, nt0, "", srv, cc, "remote", false, some host, now⟩ :
            DeviceRec)) ∈
          (registerBody s "remote" u nt0 loc srv cc false (some host)
            now).1.known := by
        rw [registerBody_known, dictSet_of_lookup_none s.known u _ h4]
        exact List.mem_append_right _ (by simp)
      cases hok : (check_valid ((registerBody s "remote" u nt0 loc srv
          cc false (some host) now).1) now2).isOk with
      | false => rfl
      | true =>
        exfalso
        have hall := (check_valid_isOk_iff _ now2).mp hok
        have hx := hall _ hmem (by simp)
        simp [h8] at hx

/-- C10 witness: a concrete alive NOTIFY with `cache-control: blah`
poisons the registry so the sweep always raises. -/
theorem c10_sweep_parse_precondition_witness :
    hget [("nts", "ssdp:alive"), ("usn", "uuid:xyz"),
      ("nt", "upnp:rootdevice"), ("location", "http://10.0.0.7:80/d.xml"),
      ("server", "Foo/2"), ("cache-control", "blah")] "nt" =
      some "upnp:rootdevice"
    ∧ parseMaxAge "blah" = none
    ∧ (∃ s1 effs, notifyReceived false
        [("nts", "ssdp:alive"), ("usn", "uuid:xyz"),
          ("nt", "upnp:rootdevice"),
          ("location", "http://10.0.0.7:80/d.xml"), ("server", "Foo/2"),
          ("cache-control", "blah")] "10.0.0.7" 50 ⟨[], []⟩ =
          .ok (s1, effs) ∧
        ∀ now2, (check_valid s1 now2).isOk = false) := by
  refine ⟨by decide, by decide, ?_⟩
  exact c10_sweep_parse_precondition.2 ⟨[], []⟩
    [("nts", "ssdp:alive"), ("usn", "uuid:xyz"),
      ("nt", "upnp:rootdevice"), ("location", "http://10.0.0.7:80/d.xml"),
      ("server", "Foo/2"), ("cache-control", "blah")] "10.0.0.7" 50
    "upnp:rootdevice" "uuid:xyz" "http://10.0.0.7:80/d.xml" "Foo/2"
    "blah" (by decide) (by decide) (by decide) (by decide) (by decide)
    (by decide) (by decide) (by decide)

/-- Re-assigning the same key overwrites the previous assignment. -/
theorem dictSet_dictSet {α : Type} (l : List (String × α)) (k : String)
    (v w : α) : dictSet (dictSet l k v) k w = dictSet l k w := by
  induction l with
  | nil => simp [dictSet]
  | cons p rest ih =>
    by_cases hp : p.1 = k
    · simp [dictSet, hp]
    · simp [dictSet, hp, ih]

/-- Assignments whose values agree up to `last_seen` give registries
that agree up to `last_seen`. -/
theorem maskLastSeen_dictSet (l : List (String × DeviceRec))
    (k : String) (v w : DeviceRec)
    (hvw : ({ v with lastSeen := 0 } : DeviceRec) =
      { w with lastSeen := 0 }) :
    maskLastSeen (dictSet l k v) = maskLastSeen (dictSet l k w) := by
  induction l with
  | nil => simp [dictSet, maskLastSeen, hvw]
  | cons p rest ih =>
    by_cases hp : p.1 = k
    · simp [dictSet, hp, maskLastSeen, hvw]
    · simpa [dictSet, hp, maskLastSeen] using ih

/-- The rootdevice projection update of `register`. -/
theorem registerBody_root (s : SSDPState) (m u st loc srv cc : String)
    (sil : Bool) (h : Option String) (now : Int) :
    (registerBody s m u st loc srv cc sil h now).1.rootDevices =
      (if st = "upnp:rootdevice" then s.rootDevices ++ [u]
       else s.rootDevices) := by
  simp only [registerBody]
  split <;> rfl

/-- The effects of one `register` call: an alive notification for a
non-silent local entry, then `new_device` for a rootdevice. -/
theorem registerBody_effs (s : SSDPState) (m u st loc srv cc : String)
    (sil : Bool) (h : Option String) (now : Int) :
    (registerBody s m u st loc srv cc sil h now).2 =
      (if m = "local" then (if sil then [] else [Eff.sentAlive u])
       else []) ++
      (if st = "upnp:rootdevice" then [Eff.newDevice st u] else []) := by
  simp only [registerBody]
  split <;> simp

/-- C7 (amended): registering the same arguments twice (IPv4 mode)
leaves the registry equal up to the refreshed `last_seen`, but repeats
the side effects verbatim: for a rootdevice the USN is appended to
`root_devices` again and `new_device` is emitted again (and a local
non-silent entry re-announces), so the second call is idempotent only
on `known` modulo `last_seen`. -/
theorem c7_register_twice_characterization (s : SSDPState)
    (m u st loc srv cc : String) (sil : Bool) (h : Option String)
    (n1 n2 : Int) :
    ∃ s1 e1 s2 e2,
      register false s m u st loc srv cc sil h n1 = .ok (s1, e1) ∧
      register false s1 m u st loc srv cc sil h n2 = .ok (s2, e2) ∧
      maskLastSeen s2.known = maskLastSeen s1.known ∧
      s2.rootDevices = (if st = "upnp:rootdevice" then
        s1.rootDevices ++ [u] else s1.rootDevices) ∧
      e2 = e1 ∧
      e1 = (if m = "local" then (if sil then [] else [Eff.sentAlive u])
        else []) ++
        (if st = "upnp:rootdevice" then [Eff.newDevice st u] else []) := by
  refine ⟨(registerBody s m u st loc srv cc sil h n1).1,
    (registerBody s m u st loc srv cc sil h n1).2,
    (registerBody (registerBody s m u st loc srv cc sil h n1).1
      m u st loc srv cc sil h n2).1,
    (registerBody (registerBody s m u st loc srv cc sil h n1).1
      m u st loc srv cc sil h n2).2, rfl, rfl, ?_, ?_, ?_, ?_⟩
  · simp only [registerBody_known, dictSet_dictSet]
    exact maskLastSeen_dictSet _ _ _ _ rfl
  · exact registerBody_root _ _ _ _ _ _ _ _ _ _
  · rw [registerBody_effs, registerBody_effs]
  · exact registerBody_effs _ _ _ _ _ _ _ _ _ _

/-- C9 (amended): in IPv4 non-test mode a second `shutdown` completes
without error and leaves the server state fixed, but it re-sends one
byebye per local record instead of producing no further traffic (and
in IPv6 mode a second call raises, see the counterexample). -/
theorem c9_shutdown_ipv4_repeat (sv : Server) (h4 : sv.ipv6 = false)
    (ht : sv.test = false) :
    ∃ sv2 e, shutdown sv = .ok (sv2, e) ∧ shutdown sv2 = .ok (sv2, e) ∧
      e = (sv.state.known.filter
        (fun p => p.2.manifestation == "local")).map
        (fun p => Eff.sentByebye p.1) := by
  obtain ⟨stt, tst, ip6, rr, cr, ds⟩ := sv
  simp only at h4 ht
  subst h4
  subst ht
  exact ⟨⟨stt, false, false, false, false, ds⟩, _, rfl, rfl, rfl⟩

/-- C9 witness: the IPv4 repeat-shutdown characterization at the
scenario S1 state. -/
theorem c9_shutdown_ipv4_repeat_witness :
    (⟨⟨[("uuid:abc", localRootRec)], ["uuid:abc"]⟩, false, false, true,
      true, false⟩ : Server).ipv6 = false
    ∧ (⟨⟨[("uuid:abc", localRootRec)], ["uuid:abc"]⟩, false, false,
      true, true, false⟩ : Server).test = false
    ∧ ∃ sv2 e,
      shutdown ⟨⟨[("uuid:abc", localRootRec)], ["uuid:abc"]⟩, false,
        false, true, true, false⟩ = .ok (sv2, e) ∧
      shutdown sv2 = .ok (sv2, e) ∧
      e = ((⟨⟨[("uuid:abc", localRootRec)], ["uuid:abc"]⟩, false, false,
        true, true, false⟩ : Server).state.known.filter
        (fun p => p.2.manifestation == "local")).map
        (fun p => Eff.sentByebye p.1) :=
  ⟨rfl, rfl, c9_shutdown_ipv4_repeat _ rfl rfl⟩
